import Mathlib

/-!
# HooYia Market — order lifecycle core, shallow embedding

This file embeds the order-lifecycle subsystem of the Django marketplace
(`apps/orders/models.py`, `apps/orders/services.py`, `apps/orders/signals.py`,
`apps/products/models.py`, `apps/products/signals.py`,
`apps/products/api_views.py`, `apps/cart/models.py`) as executable Lean
definitions, and proves the specified properties about them.

Conventions of the embedding:
* Django model rows become Lean structures; the database becomes an explicit
  `Db` record of lists, passed and returned by each operation.
* `DecimalField` money amounts become `Rat` (exact decimal arithmetic).
* `PositiveIntegerField` stock and quantities become `Nat`.
* Raising `ValidationError` / `TransitionNotAllowed` becomes returning an
  error value (`Except`, or an `Option` error paired with the unchanged state).
* Celery task enqueueing (`.delay()` / `.apply_async()`) becomes appending a
  `TacheCelery` value to `Db.taches`; it is an external effect, so a database
  rollback does not remove already-appended tasks (see `mondeApresRollback`).
* `django_fsm` transitions check the source state before running the method
  body; an illegal transition raises and leaves everything unchanged.
-/

namespace HooYia

/-- Order status constants of `Commande` (orders/models.py). -/
inductive StatutCommande
  | enAttente
  | confirmee
  | enPreparation
  | expediee
  | livree
  | annulee
deriving DecidableEq, Repr

/-- Product status choices of `Produit.Statut` (products/models.py). -/
inductive StatutProduit
  | actif
  | inactif
  | epuise
  | archive
deriving DecidableEq, Repr

/-- Payment mode choices of `Paiement.ModePaiement` (orders/models.py). -/
inductive ModePaiement
  | livraison
  | orangeMoney
  | mtnMomo
  | carte
deriving DecidableEq, Repr

/-- Payment status choices of `Paiement.StatutPaiement` (orders/models.py). -/
inductive StatutPaiement
  | enAttente
  | reussi
  | echoue
  | rembourse
deriving DecidableEq, Repr

/-- Stock movement type choices of `MouvementStock.TypeMouvement`
(products/models.py). -/
inductive TypeMouvement
  | entree
  | sortie
  | ajustement
  | retour
deriving DecidableEq, Repr

/-- A row of `products.Produit`, restricted to the fields the order
lifecycle reads or writes.  `pid` is the primary key. -/
structure Produit where
  pid : Nat
  nom : String
  prix : Rat
  stock : Nat
  statut : StatutProduit
deriving DecidableEq, Repr

/-- A row of `cart.PanierItem`: `produit` is the nullable FK (`SET_NULL`
keeps the line with `produit = none` when the product is deleted),
`prixSnapshot` is the price captured when the item was added. -/
structure PanierItem where
  produit : Option Nat
  quantite : Nat
  prixSnapshot : Rat
deriving DecidableEq, Repr

/-- A row of `orders.LigneCommande`: product FK (nullable), snapshotted
product name, quantity and snapshotted unit price. -/
structure LigneCommande where
  produit : Option Nat
  produitNom : String
  quantite : Nat
  prixUnitaire : Rat
deriving DecidableEq, Repr

/-- A row of `users.AdresseLivraison`, restricted to the fields
`OrderService.create_from_cart` copies into the order. -/
structure AdresseLivraison where
  nomComplet : String
  telephone : String
  adresse : String
  ville : String
  region : String
  pays : String
deriving DecidableEq, Repr

/-- A row of `orders.Commande`.  The six `adresse_livraison_*` columns are
the snapshot copied from the chosen address at creation; `dateLivraison`
models the nullable `date_livraison` timestamp (time is an abstract `Nat`
tick). -/
structure Commande where
  statut : StatutCommande
  montantTotal : Rat
  noteClient : String
  adrNom : String
  adrTelephone : String
  adrAdresse : String
  adrVille : String
  adrRegion : String
  adrPays : String
  dateLivraison : Option Nat
deriving DecidableEq, Repr

/-- A row of `orders.Paiement` (the `commande` OneToOne key is the first
component of the pair stored in `Db.paiements`). -/
structure Paiement where
  mode : ModePaiement
  statut : StatutPaiement
  montant : Rat
deriving DecidableEq, Repr

/-- A row of `products.MouvementStock`: the append-only stock ledger. -/
structure MouvementStock where
  produit : Nat
  typeMouvement : TypeMouvement
  quantite : Nat
  stockAvant : Nat
  stockApres : Nat
deriving DecidableEq, Repr

/-- A Celery task enqueued by orders/signals.py:
`send_order_confirmation_email.delay(pk)` and
`send_review_reminder.apply_async(args=[pk], countdown=259200)`. -/
inductive TacheCelery
  | confirmationEmail (commande : Nat)
  | rappelAvis (commande : Nat)
deriving DecidableEq, Repr

/-- The database state seen by the order lifecycle, for one client.
`commandes` is indexed by position (the order id); `lignes` and `paiements`
pair each row with its order id.  `panierExiste` models the `Panier` row
itself (created once per user by users/signals.py and never deleted;
`panier.vider()` deletes only the items).  `taches` is the Celery broker
queue — an external system, not a database table. -/
structure Db where
  produits : List Produit
  adresses : List AdresseLivraison
  panierExiste : Bool
  panierItems : List PanierItem
  commandes : List Commande
  lignes : List (Nat × LigneCommande)
  paiements : List (Nat × Paiement)
  mouvements : List MouvementStock
  taches : List TacheCelery
deriving DecidableEq, Repr

/-- Primary-key lookup of a product. -/
def findProduit (db : Db) (i : Nat) : Option Produit :=
  db.produits.find? (fun p => p.pid = i)

/-- Update the product row with primary key `i` in place. -/
def updateProduit (db : Db) (i : Nat) (f : Produit → Produit) : Db :=
  { db with produits := db.produits.map (fun p => if p.pid = i then f p else p) }

/-- `Produit.save` (products/models.py): besides writing the row, the
overridden `save` flips an ACTIVE product whose stock reached 0 to
out-of-stock.  (The slug generation only touches `slug`, which the order
lifecycle never reads, so it is omitted.)  This body runs on every save,
including saves restricted by `update_fields=['stock', 'statut']`. -/
def produitSave (p : Produit) : Produit :=
  if p.stock = 0 ∧ p.statut = StatutProduit.actif then
    { p with statut := StatutProduit.epuise }
  else p

/-- `Panier.total` (cart/models.py): sum over the items of
`quantite * prix_snapshot`. -/
def panierTotal (db : Db) : Rat :=
  (db.panierItems.map (fun it => (it.quantite : Rat) * it.prixSnapshot)).sum

/-- The lines of order `cid` (`commande.lignes.all()`). -/
def lignesDe (db : Db) (cid : Nat) : List LigneCommande :=
  (db.lignes.filter (fun l => l.1 = cid)).map (fun l => l.2)

/-- The payments of order `cid` (OneToOne in the schema, so at most one in
any state reachable by the operations below). -/
def paiementsDe (db : Db) (cid : Nat) : List Paiement :=
  (db.paiements.filter (fun l => l.1 = cid)).map (fun l => l.2)

/-- Row lookup of an order by id. -/
def getCommande (db : Db) (cid : Nat) : Option Commande :=
  db.commandes.get? cid

/-- Write back an order row. -/
def setCommande (db : Db) (cid : Nat) (c : Commande) : Db :=
  { db with commandes := db.commandes.set cid c }

/-- `Commande.peut_etre_annulee` (orders/models.py). -/
def peutEtreAnnulee (c : Commande) : Bool :=
  c.statut ≠ StatutCommande.livree ∧ c.statut ≠ StatutCommande.annulee

/-- The five FSM transition methods of `Commande`. -/
inductive Evenement
  | confirmer
  | mettreEnPreparation
  | expedier
  | livrer
  | annuler
deriving DecidableEq, Repr

/-- The `source=` argument of each `@transition` decorator in
orders/models.py. -/
def sourcesAutorisees : Evenement → List StatutCommande
  | Evenement.confirmer => [StatutCommande.enAttente]
  | Evenement.mettreEnPreparation => [StatutCommande.confirmee]
  | Evenement.expedier => [StatutCommande.enPreparation]
  | Evenement.livrer => [StatutCommande.expediee]
  | Evenement.annuler =>
      [StatutCommande.enAttente, StatutCommande.confirmee,
       StatutCommande.enPreparation, StatutCommande.expediee]

/-- The `target=` argument of each `@transition` decorator. -/
def cibleEvenement : Evenement → StatutCommande
  | Evenement.confirmer => StatutCommande.confirmee
  | Evenement.mettreEnPreparation => StatutCommande.enPreparation
  | Evenement.expedier => StatutCommande.expediee
  | Evenement.livrer => StatutCommande.livree
  | Evenement.annuler => StatutCommande.annulee

/-- `django_fsm.TransitionNotAllowed`, which reports the object's current
state and the attempted transition. -/
structure TransitionInterdite where
  statutCourant : StatutCommande
  evenement : Evenement
deriving DecidableEq, Repr

/-- The two `post_save` receivers of orders/signals.py, run on every
non-creating save of a `Commande`: when the saved status is CONFIRMEE the
confirmation-email task is enqueued, when it is LIVREE the review-reminder
task is enqueued.  Enqueueing happens synchronously, inside whatever
transaction performed the save. -/
def signalPostSave (db : Db) (cid : Nat) (c : Commande) : Db :=
  let db1 :=
    if c.statut = StatutCommande.confirmee then
      { db with taches := db.taches ++ [TacheCelery.confirmationEmail cid] }
    else db
  if c.statut = StatutCommande.livree then
    { db1 with taches := db1.taches ++ [TacheCelery.rappelAvis cid] }
  else db1

/-- Shared shape of the two stock-writing loops of the order lifecycle:
walk a list of (product FK, quantity) pairs and apply `g` to each
referenced product row (`item.produit.save(update_fields=['stock',
'statut'])` after mutating the instance).  Instantiated with subtraction by
`create_from_cart` step 5 and with addition by `Commande.annuler`. -/
def majStockListe (g : Produit → Nat → Produit) : Db → List (Option Nat × Nat) → Db
  | db, [] => db
  | db, (none, _) :: rest => majStockListe g db rest
  | db, (some i, q) :: rest => majStockListe g (updateProduit db i (fun p => g p q)) rest

/-- Step 5 of `create_from_cart` (services.py): for each cart item,
`item.produit.stock -= item.quantite; item.produit.save(...)`. -/
def decrementerStock (db : Db) (items : List PanierItem) : Db :=
  majStockListe (fun p q => produitSave { p with stock := p.stock - q }) db
    (items.map (fun it => (it.produit, it.quantite)))

/-- Body of `Commande.annuler` (orders/models.py): for each order line with
a non-null product, `ligne.produit.stock += ligne.quantite;
ligne.produit.save(update_fields=['stock', 'statut'])`. -/
def restaurerStock (db : Db) (cid : Nat) : Db :=
  majStockListe (fun p q => produitSave { p with stock := p.stock + q }) db
    ((lignesDe db cid).map (fun l => (l.produit, l.quantite)))

/-- One admin FSM endpoint call (orders/api_views.py,
`TransitionCommandeAPIView.post`): fetch the order, call the transition
method, save.  `django_fsm` checks the source list before running the
method body; on failure nothing is mutated and `TransitionNotAllowed` is
reported (the view answers 400).  On success the method body runs
(`annuler` restores stock, `livrer` stamps `date_livraison` with the
current time `mnt`), the status moves to the target, and the save fires
the `post_save` signals.  A missing order id is the view's 404 path:
nothing happens. -/
def appliquerEvenement (db : Db) (cid : Nat) (e : Evenement) (mnt : Nat) :
    Db × Except TransitionInterdite Unit :=
  match getCommande db cid with
  | none => (db, Except.ok ())
  | some c =>
    if c.statut ∈ sourcesAutorisees e then
      let db1 := if e = Evenement.annuler then restaurerStock db cid else db
      let c1 :=
        if e = Evenement.livrer then
          { c with statut := cibleEvenement e, dateLivraison := some mnt }
        else
          { c with statut := cibleEvenement e }
      let db2 := setCommande db1 cid c1
      (signalPostSave db2 cid c1, Except.ok ())
    else (db, Except.error ⟨c.statut, e⟩)

/-- The `ValidationError`s raised by `OrderService.create_from_cart`:
no cart row, empty cart, a cart line whose product was deleted, or a line
whose product lacks stock (the error message names the product and the
available/requested quantities). -/
inductive ErreurCreation
  | pasDePanier
  | panierVide
  | produitIndisponible
  | stockInsuffisant (nom : String) (disponible : Nat) (demande : Nat)
deriving DecidableEq, Repr

/-- Step 2 of `create_from_cart`: validate every cart line before any
mutation.  A `none` FK means the product was deleted (`SET_NULL`); a FK
that no longer resolves is treated the same way. -/
def verifierStock (db : Db) : List PanierItem → Option ErreurCreation
  | [] => none
  | it :: rest =>
    match it.produit.bind (findProduit db) with
    | none => some ErreurCreation.produitIndisponible
    | some p =>
      if p.stock < it.quantite then
        some (ErreurCreation.stockInsuffisant p.nom p.stock it.quantite)
      else verifierStock db rest

/-- External effects of a service call, in execution order, used to relate
Celery enqueueing to the transaction commit.  `@transaction.atomic` commits
when the decorated function returns, so `commitTransaction` is always the
last effect of a successful call. -/
inductive Effet
  | enqueueTache (t : TacheCelery)
  | commitTransaction
deriving DecidableEq, Repr

/-- Step 3 of `create_from_cart`: the new `Commande` row, created in
EN_ATTENTE with the address fields copied (not referenced) from the given
address and the total computed from the cart. -/
def commandeInitiale (db : Db) (adresse : AdresseLivraison) (note : String) : Commande :=
  { statut := StatutCommande.enAttente
    montantTotal := panierTotal db
    noteClient := note
    adrNom := adresse.nomComplet
    adrTelephone := adresse.telephone
    adrAdresse := adresse.adresse
    adrVille := adresse.ville
    adrRegion := adresse.region
    adrPays := adresse.pays
    dateLivraison := none }

/-- Step 4 of `create_from_cart`: one `LigneCommande` per cart item, with
the product name and the cart's snapshotted price copied in.  (Validation
has guaranteed that every item's product resolves, so the `getD ""`
default is never reached.) -/
def lignesDepuisPanier (db : Db) (cid : Nat) : List (Nat × LigneCommande) :=
  db.panierItems.map (fun it =>
    (cid,
      { produit := it.produit
        produitNom := ((it.produit.bind (findProduit db)).map Produit.nom).getD ""
        quantite := it.quantite
        prixUnitaire := it.prixSnapshot }))

/-- Steps 3-8 of `create_from_cart`, run after validation succeeded:
create the order and its lines, decrement the stock, create the pending
payment, empty the cart (the cart row survives), then
`commande.confirmer(); commande.save()` — whose `post_save` signal
enqueues the confirmation email. -/
def executerCreation (db : Db) (adresse : AdresseLivraison)
    (mode : ModePaiement) (note : String) : Db :=
  let cid := db.commandes.length
  let commande := commandeInitiale db adresse note
  let db1 := { db with
    commandes := db.commandes ++ [commande]
    lignes := db.lignes ++ lignesDepuisPanier db cid }
  let db2 := decrementerStock db1 db.panierItems
  let db3 := { db2 with
    paiements := db2.paiements ++
      [(cid, ({ mode := mode, statut := StatutPaiement.enAttente
                montant := commande.montantTotal } : Paiement))] }
  let db4 := { db3 with panierItems := [] }
  let confirmee := { commande with statut := StatutCommande.confirmee }
  signalPostSave (setCommande db4 cid confirmee) cid confirmee

/-- `OrderService.create_from_cart` (services.py), instrumented with the
ordered list of its external effects.  Steps, as in the source:
1-2. fetch the cart, reject an empty cart, validate every line's product
     and stock before any mutation;
3-8. `executerCreation` — the save of step 8 enqueues the confirmation
     email *inside* the transaction; the transaction commits at return,
     which is why `Effet.commitTransaction` is the last journal entry. -/
def createFromCartJournal (db : Db) (adresse : AdresseLivraison)
    (mode : ModePaiement) (note : String) :
    Except ErreurCreation (Db × Nat × List Effet) :=
  if ¬ db.panierExiste then Except.error ErreurCreation.pasDePanier
  else if db.panierItems.isEmpty then Except.error ErreurCreation.panierVide
  else
    match verifierStock db db.panierItems with
    | some e => Except.error e
    | none =>
      Except.ok (executerCreation db adresse mode note, db.commandes.length,
        [Effet.enqueueTache (TacheCelery.confirmationEmail db.commandes.length),
         Effet.commitTransaction])

/-- `create_from_cart` as the caller sees it: the transaction either
commits the new state or rolls everything back to the initial state. -/
def createFromCartRun (db : Db) (adresse : AdresseLivraison)
    (mode : ModePaiement) (note : String) : Db × Except ErreurCreation Nat :=
  match createFromCartJournal db adresse mode note with
  | Except.ok (db', cid, _) => (db', Except.ok cid)
  | Except.error e => (db, Except.error e)

/-- A transaction that executed but failed to commit (or was rolled back
by an enclosing atomic block): the database reverts to the initial state,
but the Celery enqueues already performed during the transaction are
external and survive. -/
def mondeApresRollback (db : Db) (journal : List Effet) : Db :=
  { db with taches := db.taches ++ journal.filterMap (fun e =>
      match e with
      | Effet.enqueueTache t => some t
      | Effet.commitTransaction => none) }

/-- The per-product body of the `post_save` receiver
`mettre_a_jour_stock_produit` (products/signals.py): set the product's
cached stock to the movement's `stock_apres` (all four movement types do
the same), then adjust the status — any product at stock 0 is marked
out-of-stock, an out-of-stock product back above 0 is reactivated to
active — then save with `update_fields=['stock', 'statut']` (which runs
the `Produit.save` body). -/
def appliquerMouvementProduit (m : MouvementStock) (p : Produit) : Produit :=
  let p1 := { p with stock := m.stockApres }
  let p2 :=
    if p1.stock = 0 then { p1 with statut := StatutProduit.epuise }
    else if p1.statut = StatutProduit.epuise then
      { p1 with statut := StatutProduit.actif }
    else p1
  produitSave p2

/-- Creation of a `MouvementStock` row followed by the `post_save` receiver
`mettre_a_jour_stock_produit` (products/signals.py) on the referenced
product. -/
def creerMouvement (db : Db) (m : MouvementStock) : Db :=
  let db1 := { db with mouvements := db.mouvements ++ [m] }
  updateProduit db1 m.produit (appliquerMouvementProduit m)

/-- The error responses of `ProduitViewSet.gerer_stock`
(products/api_views.py). -/
inductive ErreurStock
  | introuvable
  | quantiteInvalide
  | stockInsuffisant
deriving DecidableEq, Repr

/-- The `stock_avant`/`stock_apres` computation of
`ProduitViewSet.gerer_stock` (products/api_views.py): reject a
non-positive quantity and an over-large `sortie`; `entree` and `retour`
add, `sortie` subtracts, `ajustement` sets the stock directly. -/
def calculerMouvement (p : Produit) (i : Nat) (tm : TypeMouvement)
    (quantite : Nat) : Except ErreurStock MouvementStock :=
  if quantite = 0 then Except.error ErreurStock.quantiteInvalide
  else
    match tm with
    | TypeMouvement.entree =>
        Except.ok ⟨i, tm, quantite, p.stock, p.stock + quantite⟩
    | TypeMouvement.retour =>
        Except.ok ⟨i, tm, quantite, p.stock, p.stock + quantite⟩
    | TypeMouvement.sortie =>
        if p.stock < quantite then Except.error ErreurStock.stockInsuffisant
        else Except.ok ⟨i, tm, quantite, p.stock, p.stock - quantite⟩
    | TypeMouvement.ajustement =>
        Except.ok ⟨i, tm, quantite, p.stock, quantite⟩

/-- `ProduitViewSet.gerer_stock` (products/api_views.py): the manual
stock-management endpoint.  It computes the movement from the product's
current stock, creates the `MouvementStock` row, and the signal updates
the product. -/
def gererStock (db : Db) (i : Nat) (tm : TypeMouvement) (quantite : Nat) :
    Except ErreurStock Db :=
  match findProduit db i with
  | none => Except.error ErreurStock.introuvable
  | some p =>
    match calculerMouvement p i tm quantite with
    | Except.error e => Except.error e
    | Except.ok mv => Except.ok (creerMouvement db mv)

/-- Later catalog / address writes, used to state snapshot isolation: a
product price or name update (a plain model save, which runs
`Produit.save`), or an address edit. -/
inductive OperationCatalogue
  | changerPrix (i : Nat) (prix : Rat)
  | changerNom (i : Nat) (nom : String)
  | changerAdresse (idx : Nat) (a : AdresseLivraison)
deriving DecidableEq, Repr

/-- Apply one catalog or address write. -/
def appliquerOperation (db : Db) : OperationCatalogue → Db
  | OperationCatalogue.changerPrix i v =>
      updateProduit db i (fun p => produitSave { p with prix := v })
  | OperationCatalogue.changerNom i s =>
      updateProduit db i (fun p => produitSave { p with nom := s })
  | OperationCatalogue.changerAdresse idx a =>
      { db with adresses := db.adresses.set idx a }

/-- Apply a sequence of catalog / address writes. -/
def appliquerOperations (db : Db) : List OperationCatalogue → Db
  | [] => db
  | op :: rest => appliquerOperations (appliquerOperation db op) rest

/-! ### Concrete states used by witnesses and counterexamples -/

/-- An empty database with the (always existing) cart row. -/
def dbVide : Db :=
  { produits := [], adresses := [], panierExiste := true, panierItems := []
    commandes := [], lignes := [], paiements := [], mouvements := [], taches := [] }

/-- A delivery address used by concrete scenarios. -/
def adrTest : AdresseLivraison :=
  { nomComplet := "Jean Mbarga", telephone := "699000001"
    adresse := "Rue 12", ville := "Douala", region := "Littoral", pays := "Cameroun" }

/-- An order row template used by concrete scenarios. -/
def commandeTest : Commande :=
  { statut := StatutCommande.enAttente, montantTotal := 100000, noteClient := ""
    adrNom := "Jean Mbarga", adrTelephone := "699000001", adrAdresse := "Rue 12"
    adrVille := "Douala", adrRegion := "Littoral", adrPays := "Cameroun"
    dateLivraison := none }

/-- A cancelled order, for exercising illegal transitions. -/
def cAnnulee : Commande := { commandeTest with statut := StatutCommande.annulee }

/-- State with a single cancelled order. -/
def dbC1 : Db := { dbVide with commandes := [cAnnulee] }

/-- Scenario A product: stock 10, price 50000, active. -/
def produitC2 : Produit :=
  { pid := 1, nom := "Telephone X", prix := 50000, stock := 10
    statut := StatutProduit.actif }

/-- Scenario A cart line: 2 units at the snapshotted price 50000. -/
def itemC2 : PanierItem := { produit := some 1, quantite := 2, prixSnapshot := 50000 }

/-- Scenario A initial state. -/
def dbC2 : Db := { dbVide with produits := [produitC2], panierItems := [itemC2] }

/-- Scenario A state after a successful `create_from_cart`. -/
def dbC2' : Db :=
  match createFromCartJournal dbC2 adrTest ModePaiement.livraison "" with
  | Except.ok (d, _, _) => d
  | Except.error _ => dbC2

/-- Scenario C product: only 1 unit in stock. -/
def produitC3 : Produit :=
  { pid := 1, nom := "Cable USB", prix := 5000, stock := 1
    statut := StatutProduit.actif }

/-- Scenario C cart line: 5 units requested. -/
def itemC3 : PanierItem := { produit := some 1, quantite := 5, prixSnapshot := 5000 }

/-- Scenario C initial state. -/
def dbC3 : Db := { dbVide with produits := [produitC3], panierItems := [itemC3] }

/-- Initial state for the stock-ledger observation (same shape as
Scenario A). -/
def produitC4 : Produit :=
  { pid := 1, nom := "Casque BT", prix := 20000, stock := 10
    statut := StatutProduit.actif }

/-- Cart line for the stock-ledger observation. -/
def itemC4 : PanierItem := { produit := some 1, quantite := 2, prixSnapshot := 20000 }

/-- State for the stock-ledger observation. -/
def dbC4 : Db := { dbVide with produits := [produitC4], panierItems := [itemC4] }

/-- State after the successful `create_from_cart` of the stock-ledger
observation. -/
def dbC4' : Db :=
  match createFromCartJournal dbC4 adrTest ModePaiement.livraison "" with
  | Except.ok (d, _, _) => d
  | Except.error _ => dbC4

/-- The effect journal of a successful creation of order 0. -/
def journalCommande0 : List Effet :=
  [Effet.enqueueTache (TacheCelery.confirmationEmail 0), Effet.commitTransaction]

/-- A shipped order with a pending delivery-mode payment. -/
def dbC5 : Db :=
  { dbVide with
    commandes := [{ commandeTest with statut := StatutCommande.expediee }]
    paiements := [(0, { mode := ModePaiement.livraison
                        statut := StatutPaiement.enAttente, montant := 100000 })] }

/-- Scenario A initial state, separate copy for the creation
postconditions. -/
def dbC6 : Db :=
  { dbVide with
    produits := [{ pid := 1, nom := "Montre GPS", prix := 50000, stock := 10
                   statut := StatutProduit.actif }]
    panierItems := [{ produit := some 1, quantite := 2, prixSnapshot := 50000 }] }

/-- State after the successful `create_from_cart` of `dbC6`. -/
def dbC6' : Db :=
  match createFromCartJournal dbC6 adrTest ModePaiement.livraison "" with
  | Except.ok (d, _, _) => d
  | Except.error _ => dbC6

/-- Initial state for the snapshot-isolation scenario. -/
def dbC7 : Db :=
  { dbVide with
    produits := [{ pid := 1, nom := "Sac a dos", prix := 15000, stock := 10
                   statut := StatutProduit.actif }]
    panierItems := [{ produit := some 1, quantite := 1, prixSnapshot := 15000 }] }

/-- State after the successful `create_from_cart` of `dbC7`. -/
def dbC7' : Db :=
  match createFromCartJournal dbC7 adrTest ModePaiement.livraison "" with
  | Except.ok (d, _, _) => d
  | Except.error _ => dbC7

/-- An explicitly archived product that still has 5 units of stock. -/
def produitC8 : Produit :=
  { pid := 1, nom := "Ancien modele", prix := 9000, stock := 5
    statut := StatutProduit.archive }

/-- State holding the archived product. -/
def dbC8 : Db := { dbVide with produits := [produitC8] }

/-- State after a manual `sortie` movement of the whole remaining stock of
the archived product. -/
def dbC8' : Db :=
  match gererStock dbC8 1 TypeMouvement.sortie 5 with
  | Except.ok d => d
  | Except.error _ => dbC8

/-- Initial state for the commit-ordering observation (same shape as
Scenario A). -/
def dbC9 : Db :=
  { dbVide with
    produits := [{ pid := 1, nom := "Clavier", prix := 12000, stock := 10
                   statut := StatutProduit.actif }]
    panierItems := [{ produit := some 1, quantite := 2, prixSnapshot := 12000 }] }

/-- State after the successful `create_from_cart` of `dbC9`. -/
def dbC9' : Db :=
  match createFromCartJournal dbC9 adrTest ModePaiement.livraison "" with
  | Except.ok (d, _, _) => d
  | Except.error _ => dbC9

/-- An out-of-stock product about to be restored by a cancellation. -/
def produitC10 : Produit :=
  { pid := 1, nom := "Tablette", prix := 80000, stock := 0
    statut := StatutProduit.epuise }

/-- The order line whose cancellation restores the stock. -/
def ligneC10 : LigneCommande :=
  { produit := some 1, produitNom := "Tablette", quantite := 2, prixUnitaire := 80000 }

/-- A confirmed order over the out-of-stock product. -/
def dbC10 : Db :=
  { dbVide with
    produits := [produitC10]
    commandes := [{ commandeTest with statut := StatutCommande.confirmee }]
    lignes := [(0, ligneC10)] }

/-! ### Helper lemmas -/

theorem produitSave_pid (p : Produit) : (produitSave p).pid = p.pid := by
  unfold produitSave; split <;> rfl

theorem produitSave_stock (p : Produit) : (produitSave p).stock = p.stock := by
  unfold produitSave; split <;> rfl

theorem produitSave_statut_pos (p : Produit) (h : p.stock ≠ 0) :
    (produitSave p).statut = p.statut := by
  unfold produitSave
  split
  case isTrue h' => exact absurd h'.1 h
  case isFalse _ => rfl

theorem find?_map_update_ne (l : List Produit) (j i : Nat) (f : Produit → Produit)
    (hf : ∀ p, (f p).pid = p.pid) (hij : j ≠ i) :
    (l.map (fun p => if p.pid = j then f p else p)).find? (fun p => p.pid = i) =
      l.find? (fun p => p.pid = i) := by
  induction l with
  | nil => rfl
  | cons p rest ih =>
    simp only [List.map_cons, List.find?_cons]
    by_cases hp : p.pid = j
    · have h1 : decide ((f p).pid = i) = false := by simp [hf, hp, hij]
      have h2 : decide (p.pid = i) = false := by simp [hp, hij]
      simp only [if_pos hp, h1, h2, ih]
    · rw [if_neg hp]
      by_cases h2 : p.pid = i
      · simp [h2]
      · have h2' : decide (p.pid = i) = false := by simp [h2]
        simp only [h2', ih]

theorem find?_map_update_eq (l : List Produit) (i : Nat) (f : Produit → Produit)
    (hf : ∀ p, (f p).pid = p.pid) :
    (l.map (fun p => if p.pid = i then f p else p)).find? (fun p => p.pid = i) =
      (l.find? (fun p => p.pid = i)).map f := by
  induction l with
  | nil => rfl
  | cons p rest ih =>
    simp only [List.map_cons, List.find?_cons]
    by_cases hp : p.pid = i
    · have h1 : decide ((f p).pid = i) = true := by simp [hf, hp]
      have h0 : decide (p.pid = i) = true := by simp [hp]
      simp only [if_pos hp, h1, h0, Option.map_some']
    · have h0 : decide (p.pid = i) = false := by simp [hp]
      rw [if_neg hp]
      simp only [h0, ih]

theorem findProduit_update_ne (db : Db) (j i : Nat) (f : Produit → Produit)
    (hf : ∀ p, (f p).pid = p.pid) (hij : j ≠ i) :
    findProduit (updateProduit db j f) i = findProduit db i :=
  find?_map_update_ne db.produits j i f hf hij

theorem findProduit_update_eq (db : Db) (i : Nat) (f : Produit → Produit)
    (hf : ∀ p, (f p).pid = p.pid) :
    findProduit (updateProduit db i f) i = (findProduit db i).map f :=
  find?_map_update_eq db.produits i f hf

theorem majStockListe_absent (g : Produit → Nat → Produit)
    (hg : ∀ p q, (g p q).pid = p.pid) (l : List (Option Nat × Nat)) (db : Db) (i : Nat)
    (h : ∀ e ∈ l, e.1 ≠ some i) :
    findProduit (majStockListe g db l) i = findProduit db i := by
  induction l generalizing db with
  | nil => rfl
  | cons e rest ih =>
    obtain ⟨o, q⟩ := e
    cases o with
    | none =>
      exact ih db (fun e' he' => h e' (List.mem_cons_of_mem _ he'))
    | some j =>
      have hj : j ≠ i := by
        intro hji
        exact h (some j, q) (List.mem_cons_self _ _) (by rw [hji])
      rw [majStockListe,
        ih _ (fun e' he' => h e' (List.mem_cons_of_mem _ he')),
        findProduit_update_ne db j i _ (fun p => hg p q) hj]

theorem majStockListe_mem (g : Produit → Nat → Produit)
    (hg : ∀ p q, (g p q).pid = p.pid) (l : List (Option Nat × Nat))
    (hp : l.Pairwise (fun a b => a.1 ≠ b.1)) (db : Db) (i q : Nat)
    (hm : (some i, q) ∈ l) :
    findProduit (majStockListe g db l) i = (findProduit db i).map (fun p => g p q) := by
  induction l generalizing db with
  | nil => cases hm
  | cons e rest ih =>
    rcases List.mem_cons.1 hm with he | hm'
    · subst he
      rw [majStockListe]
      have habs : ∀ e' ∈ rest, e'.1 ≠ some i := by
        intro e' he'
        have := (List.pairwise_cons.1 hp).1 e' he'
        exact fun h' => this (h' ▸ rfl)
      rw [majStockListe_absent g hg rest _ i habs,
        findProduit_update_eq db i _ (fun p => hg p q)]
    · obtain ⟨o, q'⟩ := e
      have ho : o ≠ some i := by
        have := (List.pairwise_cons.1 hp).1 (some i, q) hm'
        exact this
      cases o with
      | none =>
        exact ih (List.pairwise_cons.1 hp).2 db hm'
      | some j =>
        have hji : j ≠ i := fun h' => ho (by rw [h'])
        rw [majStockListe, ih (List.pairwise_cons.1 hp).2 _ hm',
          findProduit_update_ne db j i _ (fun p => hg p q') hji]

theorem majStockListe_pres {β : Type} (F : Produit → β) (g : Produit → Nat → Produit)
    (hg : ∀ p q, (g p q).pid = p.pid) (l : List (Option Nat × Nat))
    (hF : ∀ p e, e ∈ l → F (g p e.2) = F p) (db : Db) (i : Nat) :
    (findProduit (majStockListe g db l) i).map F = (findProduit db i).map F := by
  induction l generalizing db with
  | nil => rfl
  | cons e rest ih =>
    obtain ⟨o, q⟩ := e
    cases o with
    | none => exact ih (fun p e' he' => hF p e' (List.mem_cons_of_mem _ he')) db
    | some j =>
      rw [majStockListe, ih (fun p e' he' => hF p e' (List.mem_cons_of_mem _ he')) _]
      by_cases hji : j = i
      · subst hji
        rw [findProduit_update_eq db j _ (fun p => hg p q), Option.map_map]
        have : F ∘ (fun p => g p q) = F := by
          funext p
          exact hF p (some j, q) (List.mem_cons_self _ _)
        rw [this]
      · rw [findProduit_update_ne db j i _ (fun p => hg p q) hji]

theorem majStockListe_champs (g : Produit → Nat → Produit) (db : Db)
    (l : List (Option Nat × Nat)) :
    (majStockListe g db l).adresses = db.adresses ∧
    (majStockListe g db l).panierExiste = db.panierExiste ∧
    (majStockListe g db l).panierItems = db.panierItems ∧
    (majStockListe g db l).commandes = db.commandes ∧
    (majStockListe g db l).lignes = db.lignes ∧
    (majStockListe g db l).paiements = db.paiements ∧
    (majStockListe g db l).mouvements = db.mouvements ∧
    (majStockListe g db l).taches = db.taches := by
  induction l generalizing db with
  | nil => exact ⟨rfl, rfl, rfl, rfl, rfl, rfl, rfl, rfl⟩
  | cons e rest ih =>
    obtain ⟨o, q⟩ := e
    cases o with
    | none => exact ih db
    | some j => exact ih (updateProduit db j fun p => g p q)

theorem signalPostSave_champs (db : Db) (cid : Nat) (c : Commande) :
    (signalPostSave db cid c).produits = db.produits ∧
    (signalPostSave db cid c).adresses = db.adresses ∧
    (signalPostSave db cid c).panierExiste = db.panierExiste ∧
    (signalPostSave db cid c).panierItems = db.panierItems ∧
    (signalPostSave db cid c).commandes = db.commandes ∧
    (signalPostSave db cid c).lignes = db.lignes ∧
    (signalPostSave db cid c).paiements = db.paiements ∧
    (signalPostSave db cid c).mouvements = db.mouvements := by
  unfold signalPostSave
  by_cases h1 : c.statut = StatutCommande.confirmee <;>
    by_cases h2 : c.statut = StatutCommande.livree <;>
      simp [h1, h2]

theorem signalPostSave_taches_confirmee (db : Db) (cid : Nat) (c : Commande)
    (h : c.statut = StatutCommande.confirmee) :
    (signalPostSave db cid c).taches = db.taches ++ [TacheCelery.confirmationEmail cid] := by
  unfold signalPostSave
  simp [h]

theorem signalPostSave_taches_livree (db : Db) (cid : Nat) (c : Commande)
    (h : c.statut = StatutCommande.livree) :
    (signalPostSave db cid c).taches = db.taches ++ [TacheCelery.rappelAvis cid] := by
  unfold signalPostSave
  simp [h]

theorem verifierStock_none_mem (db : Db) :
    ∀ items : List PanierItem, verifierStock db items = none →
      ∀ it ∈ items, ∃ i p, it.produit = some i ∧ findProduit db i = some p ∧
        it.quantite ≤ p.stock := by
  intro items
  induction items with
  | nil => intro _ it hit; cases hit
  | cons a rest ih =>
    intro h it hit
    rw [verifierStock] at h
    cases hb : a.produit.bind (findProduit db) with
    | none => rw [hb] at h; cases h
    | some p =>
      rw [hb] at h
      have h' : (if p.stock < a.quantite then
          some (ErreurCreation.stockInsuffisant p.nom p.stock a.quantite)
        else verifierStock db rest) = none := h
      by_cases hs : p.stock < a.quantite
      · rw [if_pos hs] at h'; cases h'
      · rw [if_neg hs] at h'
        rcases List.mem_cons.1 hit with rfl | hit'
        · obtain ⟨i, hi, hf⟩ := Option.bind_eq_some.1 hb
          exact ⟨i, p, hi, hf, Nat.le_of_not_lt hs⟩
        · exact ih h' it hit'

theorem verifierStock_some_forme (db : Db) :
    ∀ (items : List PanierItem) (e : ErreurCreation), verifierStock db items = some e →
      e = ErreurCreation.produitIndisponible ∨
      ∃ nom disp dem, e = ErreurCreation.stockInsuffisant nom disp dem ∧
        ∃ it, it ∈ items ∧ ∃ i p, it.produit = some i ∧ findProduit db i = some p ∧
          p.nom = nom ∧ p.stock = disp ∧ it.quantite = dem ∧ disp < dem := by
  intro items
  induction items with
  | nil => intro e h; cases h
  | cons a rest ih =>
    intro e h
    rw [verifierStock] at h
    cases hb : a.produit.bind (findProduit db) with
    | none =>
      rw [hb] at h
      have h' : some ErreurCreation.produitIndisponible = some e := h
      exact Or.inl (Option.some.inj h').symm
    | some p =>
      rw [hb] at h
      have h' : (if p.stock < a.quantite then
          some (ErreurCreation.stockInsuffisant p.nom p.stock a.quantite)
        else verifierStock db rest) = some e := h
      by_cases hs : p.stock < a.quantite
      · rw [if_pos hs] at h'
        refine Or.inr ⟨p.nom, p.stock, a.quantite, (Option.some.inj h').symm,
          a, List.mem_cons_self _ _, ?_⟩
        obtain ⟨i, hi, hf⟩ := Option.bind_eq_some.1 hb
        exact ⟨i, p, hi, hf, rfl, rfl, rfl, hs⟩
      · rw [if_neg hs] at h'
        rcases ih e h' with h'' | ⟨nom, disp, dem, he, it, hit, reste⟩
        · exact Or.inl h''
        · exact Or.inr ⟨nom, disp, dem, he, it, List.mem_cons_of_mem _ hit, reste⟩

theorem set_concat_length {α : Type} (l : List α) (a b : α) :
    (l ++ [a]).set l.length b = l ++ [b] := by
  induction l with
  | nil => rfl
  | cons x xs ih =>
    show x :: (xs ++ [a]).set xs.length b = x :: (xs ++ [b])
    rw [ih]

theorem appliquerOperation_cadre (db : Db) (op : OperationCatalogue) :
    (appliquerOperation db op).lignes = db.lignes ∧
    (appliquerOperation db op).commandes = db.commandes := by
  cases op <;> exact ⟨rfl, rfl⟩

theorem appliquerOperations_cadre (db : Db) (ops : List OperationCatalogue) :
    (appliquerOperations db ops).lignes = db.lignes ∧
    (appliquerOperations db ops).commandes = db.commandes := by
  induction ops generalizing db with
  | nil => exact ⟨rfl, rfl⟩
  | cons op rest ih =>
    have h1 := appliquerOperation_cadre db op
    have h2 := ih (appliquerOperation db op)
    exact ⟨h2.1.trans h1.1, h2.2.trans h1.2⟩

theorem filtre_cles_anciennes {P : List (Nat × Paiement)} {n : Nat}
    (h : ∀ pc ∈ P, pc.1 < n) : P.filter (fun pc => pc.1 = n) = [] := by
  rw [List.filter_eq_nil]
  intro pc hpc
  simp only [decide_eq_true_eq]
  exact Nat.ne_of_lt (h pc hpc)

theorem findProduit_dep (db1 db2 : Db) (h : db1.produits = db2.produits) (i : Nat) :
    findProduit db1 i = findProduit db2 i := by
  unfold findProduit; rw [h]

theorem majStockListe_produits_dep (g : Produit → Nat → Produit)
    (l : List (Option Nat × Nat)) (db1 db2 : Db) (h : db1.produits = db2.produits) :
    (majStockListe g db1 l).produits = (majStockListe g db2 l).produits := by
  induction l generalizing db1 db2 with
  | nil => exact h
  | cons e rest ih =>
    obtain ⟨o, q⟩ := e
    cases o with
    | none => exact ih _ _ h
    | some j =>
      refine ih _ _ ?_
      show db1.produits.map _ = db2.produits.map _
      rw [h]

@[simp] theorem setCommande_produits (db : Db) (cid : Nat) (c : Commande) :
    (setCommande db cid c).produits = db.produits := rfl

@[simp] theorem setCommande_adresses (db : Db) (cid : Nat) (c : Commande) :
    (setCommande db cid c).adresses = db.adresses := rfl

@[simp] theorem setCommande_panierExiste (db : Db) (cid : Nat) (c : Commande) :
    (setCommande db cid c).panierExiste = db.panierExiste := rfl

@[simp] theorem setCommande_panierItems (db : Db) (cid : Nat) (c : Commande) :
    (setCommande db cid c).panierItems = db.panierItems := rfl

@[simp] theorem setCommande_commandes (db : Db) (cid : Nat) (c : Commande) :
    (setCommande db cid c).commandes = db.commandes.set cid c := rfl

@[simp] theorem setCommande_lignes (db : Db) (cid : Nat) (c : Commande) :
    (setCommande db cid c).lignes = db.lignes := rfl

@[simp] theorem setCommande_paiements (db : Db) (cid : Nat) (c : Commande) :
    (setCommande db cid c).paiements = db.paiements := rfl

@[simp] theorem setCommande_mouvements (db : Db) (cid : Nat) (c : Commande) :
    (setCommande db cid c).mouvements = db.mouvements := rfl

@[simp] theorem setCommande_taches (db : Db) (cid : Nat) (c : Commande) :
    (setCommande db cid c).taches = db.taches := rfl

@[simp] theorem decrementerStock_adresses (db : Db) (items : List PanierItem) :
    (decrementerStock db items).adresses = db.adresses :=
  (majStockListe_champs _ _ _).1

@[simp] theorem decrementerStock_panierExiste (db : Db) (items : List PanierItem) :
    (decrementerStock db items).panierExiste = db.panierExiste :=
  (majStockListe_champs _ _ _).2.1

@[simp] theorem decrementerStock_panierItems (db : Db) (items : List PanierItem) :
    (decrementerStock db items).panierItems = db.panierItems :=
  (majStockListe_champs _ _ _).2.2.1

@[simp] theorem decrementerStock_commandes (db : Db) (items : List PanierItem) :
    (decrementerStock db items).commandes = db.commandes :=
  (majStockListe_champs _ _ _).2.2.2.1

@[simp] theorem decrementerStock_lignes (db : Db) (items : List PanierItem) :
    (decrementerStock db items).lignes = db.lignes :=
  (majStockListe_champs _ _ _).2.2.2.2.1

@[simp] theorem decrementerStock_paiements (db : Db) (items : List PanierItem) :
    (decrementerStock db items).paiements = db.paiements :=
  (majStockListe_champs _ _ _).2.2.2.2.2.1

@[simp] theorem decrementerStock_mouvements (db : Db) (items : List PanierItem) :
    (decrementerStock db items).mouvements = db.mouvements :=
  (majStockListe_champs _ _ _).2.2.2.2.2.2.1

@[simp] theorem decrementerStock_taches (db : Db) (items : List PanierItem) :
    (decrementerStock db items).taches = db.taches :=
  (majStockListe_champs _ _ _).2.2.2.2.2.2.2

@[simp] theorem restaurerStock_adresses (db : Db) (cid : Nat) :
    (restaurerStock db cid).adresses = db.adresses :=
  (majStockListe_champs _ _ _).1

@[simp] theorem restaurerStock_panierExiste (db : Db) (cid : Nat) :
    (restaurerStock db cid).panierExiste = db.panierExiste :=
  (majStockListe_champs _ _ _).2.1

@[simp] theorem restaurerStock_panierItems (db : Db) (cid : Nat) :
    (restaurerStock db cid).panierItems = db.panierItems :=
  (majStockListe_champs _ _ _).2.2.1

@[simp] theorem restaurerStock_commandes (db : Db) (cid : Nat) :
    (restaurerStock db cid).commandes = db.commandes :=
  (majStockListe_champs _ _ _).2.2.2.1

@[simp] theorem restaurerStock_lignes (db : Db) (cid : Nat) :
    (restaurerStock db cid).lignes = db.lignes :=
  (majStockListe_champs _ _ _).2.2.2.2.1

@[simp] theorem restaurerStock_paiements (db : Db) (cid : Nat) :
    (restaurerStock db cid).paiements = db.paiements :=
  (majStockListe_champs _ _ _).2.2.2.2.2.1

@[simp] theorem restaurerStock_mouvements (db : Db) (cid : Nat) :
    (restaurerStock db cid).mouvements = db.mouvements :=
  (majStockListe_champs _ _ _).2.2.2.2.2.2.1

@[simp] theorem restaurerStock_taches (db : Db) (cid : Nat) :
    (restaurerStock db cid).taches = db.taches :=
  (majStockListe_champs _ _ _).2.2.2.2.2.2.2

@[simp] theorem signalPostSave_produits (db : Db) (cid : Nat) (c : Commande) :
    (signalPostSave db cid c).produits = db.produits :=
  (signalPostSave_champs _ _ _).1

@[simp] theorem signalPostSave_adresses (db : Db) (cid : Nat) (c : Commande) :
    (signalPostSave db cid c).adresses = db.adresses :=
  (signalPostSave_champs _ _ _).2.1

@[simp] theorem signalPostSave_panierExiste (db : Db) (cid : Nat) (c : Commande) :
    (signalPostSave db cid c).panierExiste = db.panierExiste :=
  (signalPostSave_champs _ _ _).2.2.1

@[simp] theorem signalPostSave_panierItems (db : Db) (cid : Nat) (c : Commande) :
    (signalPostSave db cid c).panierItems = db.panierItems :=
  (signalPostSave_champs _ _ _).2.2.2.1

@[simp] theorem signalPostSave_commandes (db : Db) (cid : Nat) (c : Commande) :
    (signalPostSave db cid c).commandes = db.commandes :=
  (signalPostSave_champs _ _ _).2.2.2.2.1

@[simp] theorem signalPostSave_lignes (db : Db) (cid : Nat) (c : Commande) :
    (signalPostSave db cid c).lignes = db.lignes :=
  (signalPostSave_champs _ _ _).2.2.2.2.2.1

@[simp] theorem signalPostSave_paiements (db : Db) (cid : Nat) (c : Commande) :
    (signalPostSave db cid c).paiements = db.paiements :=
  (signalPostSave_champs _ _ _).2.2.2.2.2.2.1

@[simp] theorem signalPostSave_mouvements (db : Db) (cid : Nat) (c : Commande) :
    (signalPostSave db cid c).mouvements = db.mouvements :=
  (signalPostSave_champs _ _ _).2.2.2.2.2.2.2

theorem executerCreation_produits (db : Db) (a : AdresseLivraison) (m : ModePaiement)
    (note : String) :
    (executerCreation db a m note).produits = (decrementerStock db db.panierItems).produits := by
  unfold executerCreation
  simp only [signalPostSave_produits, setCommande_produits]
  exact majStockListe_produits_dep _ _ _ _ rfl

theorem executerCreation_etat (db : Db) (a : AdresseLivraison) (m : ModePaiement)
    (note : String) :
    (executerCreation db a m note).panierExiste = db.panierExiste ∧
    (executerCreation db a m note).panierItems = [] ∧
    (executerCreation db a m note).adresses = db.adresses ∧
    (executerCreation db a m note).mouvements = db.mouvements ∧
    (executerCreation db a m note).lignes =
      db.lignes ++ lignesDepuisPanier db db.commandes.length ∧
    (executerCreation db a m note).commandes =
      db.commandes ++ [{ commandeInitiale db a note with statut := StatutCommande.confirmee }] ∧
    (executerCreation db a m note).paiements =
      db.paiements ++ [(db.commandes.length,
        ({ mode := m, statut := StatutPaiement.enAttente
           montant := panierTotal db } : Paiement))] ∧
    (executerCreation db a m note).taches =
      db.taches ++ [TacheCelery.confirmationEmail db.commandes.length] := by
  unfold executerCreation
  refine ⟨by simp, by simp, by simp, by simp, by simp, by simp [set_concat_length],
    by simp [commandeInitiale], by simp [signalPostSave_taches_confirmee]⟩

theorem createFromCart_ok_decomp (db : Db) (a : AdresseLivraison) (m : ModePaiement)
    (note : String) (db' : Db) (cid : Nat) (J : List Effet)
    (h : createFromCartJournal db a m note = Except.ok (db', cid, J)) :
    db.panierExiste = true ∧ db.panierItems.isEmpty = false ∧
    verifierStock db db.panierItems = none ∧
    db' = executerCreation db a m note ∧ cid = db.commandes.length ∧
    J = [Effet.enqueueTache (TacheCelery.confirmationEmail db.commandes.length),
         Effet.commitTransaction] := by
  unfold createFromCartJournal at h
  split at h
  · cases h
  next hpe =>
    split at h
    · cases h
    next hvide =>
      split at h
      · cases h
      next hv =>
        simp only [Except.ok.injEq, Prod.mk.injEq] at h
        obtain ⟨h1, h2, h3⟩ := h
        exact ⟨not_not.1 hpe, Bool.eq_false_iff.2 hvide, hv, h1.symm, h2.symm, h3.symm⟩

theorem getCommande_setCommande (db : Db) (cid : Nat) (c c' : Commande)
    (h : getCommande db cid = some c) :
    getCommande (setCommande db cid c') cid = some c' := by
  unfold getCommande at h ⊢
  unfold setCommande
  have hlt : cid < db.commandes.length := by
    by_contra hge
    rw [List.get?_eq_none.2 (Nat.le_of_not_lt hge)] at h
    cases h
  rw [List.get?_set_eq, h]
  simp [hlt]

@[simp] theorem getCommande_signalPostSave (db : Db) (cid cid' : Nat) (c : Commande) :
    getCommande (signalPostSave db cid' c) cid = getCommande db cid := by
  unfold getCommande
  rw [signalPostSave_commandes]

@[simp] theorem findProduit_signal_set (db0 : Db) (cid' cid'' : Nat)
    (c' c'' : Commande) (i : Nat) :
    findProduit (signalPostSave (setCommande db0 cid' c') cid'' c'') i =
      findProduit db0 i :=
  findProduit_dep _ _ (by simp) i

theorem appliquerEvenement_livrer_ok (db : Db) (cid mnt : Nat) (c : Commande)
    (hc : getCommande db cid = some c)
    (hsrc : c.statut ∈ sourcesAutorisees Evenement.livrer) :
    appliquerEvenement db cid Evenement.livrer mnt =
      (signalPostSave (setCommande db cid
          { c with statut := StatutCommande.livree, dateLivraison := some mnt }) cid
          { c with statut := StatutCommande.livree, dateLivraison := some mnt },
        Except.ok ()) := by
  simp only [appliquerEvenement, hc, if_pos hsrc]
  rw [if_true]
  rfl

theorem appliquerEvenement_annuler_ok (db : Db) (cid mnt : Nat) (c : Commande)
    (hc : getCommande db cid = some c)
    (hsrc : c.statut ∈ sourcesAutorisees Evenement.annuler) :
    appliquerEvenement db cid Evenement.annuler mnt =
      (signalPostSave (setCommande (restaurerStock db cid) cid
          { c with statut := StatutCommande.annulee }) cid
          { c with statut := StatutCommande.annulee },
        Except.ok ()) := by
  simp only [appliquerEvenement, hc, if_pos hsrc]
  rw [if_true, if_neg (by decide : ¬(Evenement.annuler = Evenement.livrer))]
  rfl

theorem appliquerMouvementProduit_pid (m : MouvementStock) (p : Produit) :
    (appliquerMouvementProduit m p).pid = p.pid := by
  simp only [appliquerMouvementProduit]
  rw [produitSave_pid]
  split_ifs <;> rfl

theorem appliquerMouvementProduit_stock (m : MouvementStock) (p : Produit) :
    (appliquerMouvementProduit m p).stock = m.stockApres := by
  simp only [appliquerMouvementProduit]
  rw [produitSave_stock]
  split_ifs <;> rfl

theorem appliquerMouvementProduit_statut (m : MouvementStock) (p : Produit) :
    (appliquerMouvementProduit m p).statut =
      (if m.stockApres = 0 then StatutProduit.epuise
       else if p.statut = StatutProduit.epuise then StatutProduit.actif
       else p.statut) := by
  simp only [appliquerMouvementProduit]
  by_cases h0 : m.stockApres = 0
  · simp [produitSave, h0]
  · by_cases he : p.statut = StatutProduit.epuise
    · simp [produitSave, h0, he]
    · simp [produitSave, h0, he]

theorem creerMouvement_resultat (db : Db) (m : MouvementStock) (p : Produit)
    (hp : findProduit db m.produit = some p) :
    (creerMouvement db m).mouvements = db.mouvements ++ [m] ∧
    ∃ p', findProduit (creerMouvement db m) m.produit = some p' ∧
      p'.stock = m.stockApres ∧
      p'.statut = (if m.stockApres = 0 then StatutProduit.epuise
        else if p.statut = StatutProduit.epuise then StatutProduit.actif
        else p.statut) := by
  constructor
  · rfl
  · have hp1 : findProduit { db with mouvements := db.mouvements ++ [m] }
        m.produit = some p := hp
    rw [show creerMouvement db m =
        updateProduit { db with mouvements := db.mouvements ++ [m] } m.produit
          (appliquerMouvementProduit m) from rfl,
      findProduit_update_eq _ _ _ (appliquerMouvementProduit_pid m), hp1]
    exact ⟨_, rfl, appliquerMouvementProduit_stock m p,
      appliquerMouvementProduit_statut m p⟩

theorem calculerMouvement_ok (p : Produit) (i : Nat) (tm : TypeMouvement)
    (q : Nat) (mv : MouvementStock) (h : calculerMouvement p i tm q = Except.ok mv) :
    mv.produit = i ∧ mv.typeMouvement = tm ∧ mv.quantite = q ∧
    mv.stockAvant = p.stock := by
  unfold calculerMouvement at h
  split at h
  · cases h
  · split at h
    · injection h with h
      subst h
      exact ⟨rfl, rfl, rfl, rfl⟩
    · injection h with h
      subst h
      exact ⟨rfl, rfl, rfl, rfl⟩
    · split at h
      · cases h
      · injection h with h
        subst h
        exact ⟨rfl, rfl, rfl, rfl⟩
    · injection h with h
      subst h
      exact ⟨rfl, rfl, rfl, rfl⟩

theorem gererStock_ok (db : Db) (i : Nat) (tm : TypeMouvement) (q : Nat)
    (db' : Db) (h : gererStock db i tm q = Except.ok db') :
    ∃ p mv, findProduit db i = some p ∧ calculerMouvement p i tm q = Except.ok mv ∧
      db' = creerMouvement db mv := by
  unfold gererStock at h
  split at h
  · cases h
  next p hp =>
    split at h
    · cases h
    next mv hmv =>
      injection h with h
      exact ⟨p, mv, hp, hmv, h.symm⟩

theorem appliquerEvenement_invalide (db : Db) (cid : Nat) (e : Evenement)
    (mnt : Nat) (c : Commande) (hc : getCommande db cid = some c)
    (hs : c.statut ∉ sourcesAutorisees e) :
    appliquerEvenement db cid e mnt = (db, Except.error ⟨c.statut, e⟩) := by
  simp only [appliquerEvenement, hc]
  rw [if_neg hs]

theorem appliquerEvenement_aucune (db : Db) (cid : Nat) (e : Evenement)
    (mnt : Nat) (hc : getCommande db cid = none) :
    appliquerEvenement db cid e mnt = (db, Except.ok ()) := by
  simp only [appliquerEvenement, hc]

/-! ### Claim theorems -/

/-- C1: for every order and every lifecycle event (confirmer,
mettre_en_preparation, expedier, livrer, annuler), if the order's current
status is not a listed valid source state of that event, then invoking the
event fails with a `TransitionNotAllowed` error carrying the current state
and the attempted event, and the whole database — in particular the
order's state — is unchanged; moreover the terminal states LIVREE and
ANNULEE are a valid source of no event, so no event ever succeeds from
them. -/
theorem transition_illegale_echoue :
    (∀ (db : Db) (cid : Nat) (e : Evenement) (mnt : Nat) (c : Commande),
        getCommande db cid = some c → c.statut ∉ sourcesAutorisees e →
        appliquerEvenement db cid e mnt =
          (db, Except.error ⟨c.statut, e⟩)) ∧
    (∀ e : Evenement,
        StatutCommande.livree ∉ sourcesAutorisees e ∧
        StatutCommande.annulee ∉ sourcesAutorisees e) := by
  constructor
  · exact fun db cid e mnt c hc hs => appliquerEvenement_invalide db cid e mnt c hc hs
  · intro e
    cases e <;> exact ⟨by decide, by decide⟩

/-- Witness for C1: calling `confirmer` on a cancelled order fails with
the invalid-transition error and leaves the state untouched. -/
theorem transition_illegale_echoue_temoin :
    appliquerEvenement dbC1 0 Evenement.confirmer 0 =
      (dbC1, Except.error ⟨StatutCommande.annulee, Evenement.confirmer⟩) :=
  transition_illegale_echoue.1 dbC1 0 Evenement.confirmer 0 cAnnulee rfl (by decide)

/-- C5 (amended): a successful `livrer` from EXPEDIEE sets the order's
delivery timestamp and enqueues the review-reminder Celery task, but it
does not touch any `Paiement` row — in particular a delivery-mode payment
keeps its EN_ATTENTE status (no code path sets a payment to REUSSI). -/
theorem livrer_effets : ∀ (db : Db) (cid mnt : Nat) (c : Commande),
    getCommande db cid = some c → c.statut = StatutCommande.expediee →
    (appliquerEvenement db cid Evenement.livrer mnt).2 = Except.ok () ∧
    getCommande (appliquerEvenement db cid Evenement.livrer mnt).1 cid =
      some { c with statut := StatutCommande.livree, dateLivraison := some mnt } ∧
    (appliquerEvenement db cid Evenement.livrer mnt).1.taches =
      db.taches ++ [TacheCelery.rappelAvis cid] ∧
    (appliquerEvenement db cid Evenement.livrer mnt).1.paiements = db.paiements := by
  intro db cid mnt c hc hs
  have hsrc : c.statut ∈ sourcesAutorisees Evenement.livrer := by
    rw [hs]; decide
  rw [appliquerEvenement_livrer_ok db cid mnt c hc hsrc]
  dsimp only
  refine ⟨rfl, ?_, ?_, ?_⟩
  · rw [getCommande_signalPostSave]
    exact getCommande_setCommande db cid c _ hc
  · rw [signalPostSave_taches_livree _ _ _ rfl, setCommande_taches]
  · rw [signalPostSave_paiements, setCommande_paiements]

/-- Witness for C5 (amended) at a concrete shipped order. -/
theorem livrer_effets_temoin :
    (appliquerEvenement dbC5 0 Evenement.livrer 7).2 = Except.ok () ∧
    getCommande (appliquerEvenement dbC5 0 Evenement.livrer 7).1 0 =
      some { commandeTest with statut := StatutCommande.livree, dateLivraison := some 7 } ∧
    (appliquerEvenement dbC5 0 Evenement.livrer 7).1.taches =
      dbC5.taches ++ [TacheCelery.rappelAvis 0] ∧
    (appliquerEvenement dbC5 0 Evenement.livrer 7).1.paiements = dbC5.paiements :=
  livrer_effets dbC5 0 7 { commandeTest with statut := StatutCommande.expediee } rfl rfl

/-- C5 counterexample: on a shipped order whose delivery-mode payment is
EN_ATTENTE, `livrer` succeeds but the payment status stays EN_ATTENTE —
it is never set to REUSSI, contradicting the claimed auto-settlement. -/
theorem livrer_paiement_contre :
    (appliquerEvenement dbC5 0 Evenement.livrer 7).2 = Except.ok () ∧
    paiementsDe (appliquerEvenement dbC5 0 Evenement.livrer 7).1 0 =
      [{ mode := ModePaiement.livraison, statut := StatutPaiement.enAttente
         montant := 100000 }] ∧
    StatutPaiement.enAttente ≠ StatutPaiement.reussi :=
  ⟨rfl, rfl, by decide⟩

/-- C10: a successful cancellation restores each line's product stock
(adding back the line quantity) and never changes any product's status
field — in particular an out-of-stock (EPUISE) product stays EPUISE even
though the restored stock is positive, because the restore path writes the
stock directly and `Produit.save` only ever switches ACTIF to EPUISE. -/
theorem annulation_cadre_statut : ∀ (db : Db) (cid mnt : Nat) (c : Commande),
    getCommande db cid = some c →
    c.statut ∈ sourcesAutorisees Evenement.annuler →
    (∀ l ∈ lignesDe db cid, 1 ≤ l.quantite) →
    (∀ i, (findProduit (appliquerEvenement db cid Evenement.annuler mnt).1 i).map
        Produit.statut = (findProduit db i).map Produit.statut) ∧
    ((lignesDe db cid).Pairwise (fun x y => x.produit ≠ y.produit) →
      ∀ l ∈ lignesDe db cid, ∀ i p, l.produit = some i → findProduit db i = some p →
        ∃ p', findProduit (appliquerEvenement db cid Evenement.annuler mnt).1 i = some p' ∧
          p'.stock = p.stock + l.quantite ∧ p'.statut = p.statut) := by
  intro db cid mnt c hc hsrc hq
  rw [appliquerEvenement_annuler_ok db cid mnt c hc hsrc]
  dsimp only
  simp only [findProduit_signal_set]
  have hg : ∀ (p : Produit) (q : Nat),
      (produitSave { p with stock := p.stock + q }).pid = p.pid := by
    intro p q
    rw [produitSave_pid]
  constructor
  · intro i
    exact majStockListe_pres Produit.statut _ hg _
      (by
        intro p e he
        obtain ⟨l, hl, rfl⟩ := List.mem_map.1 he
        have h1 : 1 ≤ l.quantite := hq l hl
        refine produitSave_statut_pos _ ?_
        show p.stock + l.quantite ≠ 0
        omega) db i
  · intro hpair l hl i p hip hfp
    have hmem : (some i, l.quantite) ∈ (lignesDe db cid).map
        (fun l => (l.produit, l.quantite)) :=
      List.mem_map.2 ⟨l, hl, by rw [hip]⟩
    have hres := majStockListe_mem _ hg _
      (List.Pairwise.map (fun x : LigneCommande => (x.produit, x.quantite))
        (fun a b h => h) hpair)
      db i l.quantite hmem
    rw [show restaurerStock db cid = majStockListe
        (fun p q => produitSave { p with stock := p.stock + q }) db
        ((lignesDe db cid).map (fun l => (l.produit, l.quantite))) from rfl, hres, hfp]
    refine ⟨_, rfl, ?_, ?_⟩
    · rw [produitSave_stock]
    · have h1 : 1 ≤ l.quantite := hq l hl
      refine produitSave_statut_pos _ ?_
      show p.stock + l.quantite ≠ 0
      omega

/-- C2: for every successful `create_from_cart` and every cart line, the
line's product ends with stock equal to its prior stock minus the line
quantity; and for every successful cancellation and every order line with
a non-null product, the product ends with stock equal to its prior stock
plus the line quantity.  (The pairwise-distinct-product hypotheses mirror
the schema: `unique_together = ('panier', 'produit')` on cart items, and
order lines are created one per cart item.) -/
theorem conservation_stock :
    (∀ (db : Db) (a : AdresseLivraison) (m : ModePaiement) (note : String)
        (db' : Db) (cid : Nat) (J : List Effet),
      createFromCartJournal db a m note = Except.ok (db', cid, J) →
      db.panierItems.Pairwise (fun x y => x.produit ≠ y.produit) →
      ∀ it ∈ db.panierItems, ∀ i, it.produit = some i → ∀ p, findProduit db i = some p →
        it.quantite ≤ p.stock ∧
        ∃ p', findProduit db' i = some p' ∧ p'.stock = p.stock - it.quantite) ∧
    (∀ (db : Db) (cid mnt : Nat) (c : Commande),
      getCommande db cid = some c →
      c.statut ∈ sourcesAutorisees Evenement.annuler →
      (lignesDe db cid).Pairwise (fun x y => x.produit ≠ y.produit) →
      ∀ l ∈ lignesDe db cid, ∀ i, l.produit = some i → ∀ p, findProduit db i = some p →
        ∃ p', findProduit (appliquerEvenement db cid Evenement.annuler mnt).1 i = some p' ∧
          p'.stock = p.stock + l.quantite) := by
  have hgsub : ∀ (p : Produit) (q : Nat),
      (produitSave { p with stock := p.stock - q }).pid = p.pid := by
    intro p q
    rw [produitSave_pid]
  have hgadd : ∀ (p : Produit) (q : Nat),
      (produitSave { p with stock := p.stock + q }).pid = p.pid := by
    intro p q
    rw [produitSave_pid]
  constructor
  · intro db a m note db' cid J h hpair it hit i hip p hfp
    obtain ⟨-, -, hv, hdb', -, -⟩ := createFromCart_ok_decomp db a m note db' cid J h
    obtain ⟨i', p', hip', hfp', hle⟩ := verifierStock_none_mem db db.panierItems hv it hit
    rw [hip] at hip'
    obtain rfl : i = i' := Option.some.inj hip'
    rw [hfp] at hfp'
    obtain rfl : p = p' := Option.some.inj hfp'
    refine ⟨hle, ?_⟩
    have hprod : findProduit db' i = findProduit (decrementerStock db db.panierItems) i := by
      rw [hdb']
      exact findProduit_dep _ _ (executerCreation_produits db a m note) i
    have hmem : (some i, it.quantite) ∈ db.panierItems.map
        (fun x => (x.produit, x.quantite)) :=
      List.mem_map.2 ⟨it, hit, by rw [hip]⟩
    have hres := majStockListe_mem _ hgsub _
      (List.Pairwise.map (fun x : PanierItem => (x.produit, x.quantite))
        (fun a b hne => hne) hpair)
      db i it.quantite hmem
    rw [hprod,
      show decrementerStock db db.panierItems = majStockListe
        (fun p q => produitSave { p with stock := p.stock - q }) db
        (db.panierItems.map (fun x => (x.produit, x.quantite))) from rfl,
      hres, hfp]
    exact ⟨_, rfl, produitSave_stock _⟩
  · intro db cid mnt c hc hsrc hpair l hl i hip p hfp
    rw [appliquerEvenement_annuler_ok db cid mnt c hc hsrc]
    dsimp only
    simp only [findProduit_signal_set]
    have hmem : (some i, l.quantite) ∈ (lignesDe db cid).map
        (fun x => (x.produit, x.quantite)) :=
      List.mem_map.2 ⟨l, hl, by rw [hip]⟩
    have hres := majStockListe_mem _ hgadd _
      (List.Pairwise.map (fun x : LigneCommande => (x.produit, x.quantite))
        (fun a b hne => hne) hpair)
      db i l.quantite hmem
    rw [show restaurerStock db cid = majStockListe
        (fun p q => produitSave { p with stock := p.stock + q }) db
        ((lignesDe db cid).map (fun x => (x.produit, x.quantite))) from rfl,
      hres, hfp]
    exact ⟨_, rfl, produitSave_stock _⟩

/-- Witness for C2 at Scenario A: stock 10, quantity 2 — after creation
the product's stock is 10 − 2. -/
theorem conservation_stock_temoin :
    itemC2.quantite ≤ produitC2.stock ∧
    ∃ p', findProduit dbC2' 1 = some p' ∧
      p'.stock = produitC2.stock - itemC2.quantite :=
  conservation_stock.1 dbC2 adrTest ModePaiement.livraison "" dbC2' 0
    journalCommande0 rfl (by decide) itemC2 (by decide) 1 rfl produitC2 rfl

/-- C3: if `create_from_cart` fails for any reason — empty cart, a cart
line with a deleted product, or a line with stock below the requested
quantity — it raises the corresponding `ValidationError` (naming the
offending product and the available/requested quantities for stock
failures), and afterward the database is exactly the initial one: no
Order, OrderLine, Payment or StockMovement row was added, every product's
stock is unchanged, and the cart still holds all its items. -/
theorem creation_echec_atomique :
    ∀ (db : Db) (a : AdresseLivraison) (m : ModePaiement) (note : String)
      (e : ErreurCreation),
    db.panierExiste = true →
    (createFromCartRun db a m note).2 = Except.error e →
    (createFromCartRun db a m note).1 = db ∧
    (e = ErreurCreation.panierVide ∨ e = ErreurCreation.produitIndisponible ∨
      ∃ nom disp dem, e = ErreurCreation.stockInsuffisant nom disp dem ∧
        ∃ it, it ∈ db.panierItems ∧ ∃ i p, it.produit = some i ∧
          findProduit db i = some p ∧ p.nom = nom ∧ p.stock = disp ∧
          it.quantite = dem ∧ disp < dem) := by
  intro db a m note e hpan h
  unfold createFromCartRun at h ⊢
  cases hJ : createFromCartJournal db a m note with
  | ok r =>
    obtain ⟨db1, cid1, J1⟩ := r
    rw [hJ] at h
    exact Except.noConfusion h
  | error e' =>
    rw [hJ] at h
    replace h : Except.error e' = Except.error e := h
    injection h with h
    subst h
    refine ⟨rfl, ?_⟩
    unfold createFromCartJournal at hJ
    split at hJ
    · next hpe => exact absurd hpan hpe
    next hpe =>
      split at hJ
      · next hvide =>
        replace hJ : Except.error ErreurCreation.panierVide =
          (Except.error e' : Except ErreurCreation (Db × Nat × List Effet)) := hJ
        injection hJ with hJ
        exact Or.inl hJ.symm
      next hvide =>
        split at hJ
        · next e'' hv =>
          replace hJ : Except.error e'' =
            (Except.error e' : Except ErreurCreation (Db × Nat × List Effet)) := hJ
          injection hJ with hJ
          subst hJ
          rcases verifierStock_some_forme db db.panierItems e'' hv with h1 | h2
          · exact Or.inr (Or.inl h1)
          · exact Or.inr (Or.inr h2)
        · next hv => cases hJ

/-- Witness for C3 at Scenario C: stock 1, quantity 5 — the call fails
with the stock error naming the product, and the state is unchanged. -/
theorem creation_echec_atomique_temoin :
    (createFromCartRun dbC3 adrTest ModePaiement.livraison "").1 = dbC3 ∧
    (ErreurCreation.stockInsuffisant "Cable USB" 1 5 = ErreurCreation.panierVide ∨
      ErreurCreation.stockInsuffisant "Cable USB" 1 5 =
        ErreurCreation.produitIndisponible ∨
      ∃ nom disp dem, ErreurCreation.stockInsuffisant "Cable USB" 1 5 =
          ErreurCreation.stockInsuffisant nom disp dem ∧
        ∃ it, it ∈ dbC3.panierItems ∧ ∃ i p, it.produit = some i ∧
          findProduit dbC3 i = some p ∧ p.nom = nom ∧ p.stock = disp ∧
          it.quantite = dem ∧ disp < dem) :=
  creation_echec_atomique dbC3 adrTest ModePaiement.livraison ""
    (ErreurCreation.stockInsuffisant "Cable USB" 1 5) rfl rfl

/-- C6: every successful `create_from_cart` leaves the returned order in
CONFIRMEE state with total equal to the sum over cart lines of quantity
times snapshotted unit price, empties the cart while keeping the cart row,
and creates exactly one payment for the order, EN_ATTENTE, with amount
equal to the order total.  (The referential-integrity hypothesis says
pre-existing payments point at existing orders.) -/
theorem creation_reussie_postconditions :
    ∀ (db : Db) (a : AdresseLivraison) (m : ModePaiement) (note : String)
      (db' : Db) (cid : Nat) (J : List Effet),
    createFromCartJournal db a m note = Except.ok (db', cid, J) →
    (∀ pc ∈ db.paiements, pc.1 < db.commandes.length) →
    ∃ c, getCommande db' cid = some c ∧
      c.statut = StatutCommande.confirmee ∧
      c.montantTotal =
        (db.panierItems.map (fun it => (it.quantite : Rat) * it.prixSnapshot)).sum ∧
      db'.panierItems = [] ∧ db'.panierExiste = true ∧
      paiementsDe db' cid =
        [{ mode := m, statut := StatutPaiement.enAttente
           montant := c.montantTotal }] := by
  intro db a m note db' cid J h hint
  obtain ⟨hpe, -, -, hdb', hcid, -⟩ := createFromCart_ok_decomp db a m note db' cid J h
  subst hdb'
  subst hcid
  obtain ⟨hpex, hpi, -, -, -, hcmd, hpay, -⟩ := executerCreation_etat db a m note
  refine ⟨{ commandeInitiale db a note with statut := StatutCommande.confirmee },
    ?_, rfl, rfl, hpi, ?_, ?_⟩
  · unfold getCommande
    rw [hcmd]
    exact List.get?_concat_length _ _
  · rw [hpex, hpe]
  · unfold paiementsDe
    rw [hpay, List.filter_append, filtre_cles_anciennes hint]
    simp [commandeInitiale]

/-- Witness for C6 at Scenario A (stock 10, quantity 2, price 50000). -/
theorem creation_reussie_postconditions_temoin :
    ∃ c, getCommande dbC6' 0 = some c ∧
      c.statut = StatutCommande.confirmee ∧
      c.montantTotal =
        (dbC6.panierItems.map (fun it => (it.quantite : Rat) * it.prixSnapshot)).sum ∧
      dbC6'.panierItems = [] ∧ dbC6'.panierExiste = true ∧
      paiementsDe dbC6' 0 =
        [{ mode := ModePaiement.livraison, statut := StatutPaiement.enAttente
           montant := c.montantTotal }] :=
  creation_reussie_postconditions dbC6 adrTest ModePaiement.livraison "" dbC6' 0
    journalCommande0 rfl (by decide)

/-- C7: for an order created by `create_from_cart`, later catalog writes —
changing a product's price or name — and later address edits leave the
order's lines (snapshotted name, unit price) and the order row itself
(snapshotted address fields) unchanged: those operations only touch the
product and address tables. -/
theorem instantane_fige :
    ∀ (db : Db) (a : AdresseLivraison) (m : ModePaiement) (note : String)
      (db' : Db) (cid : Nat) (J : List Effet),
    createFromCartJournal db a m note = Except.ok (db', cid, J) →
    ∀ ops : List OperationCatalogue,
      lignesDe (appliquerOperations db' ops) cid = lignesDe db' cid ∧
      getCommande (appliquerOperations db' ops) cid = getCommande db' cid := by
  intro db a m note db' cid J h ops
  constructor
  · unfold lignesDe
    rw [(appliquerOperations_cadre db' ops).1]
  · unfold getCommande
    rw [(appliquerOperations_cadre db' ops).2]

/-- Witness for C7: after creation, a price change and a rename of the
source product leave the order's line and row untouched. -/
theorem instantane_fige_temoin :
    lignesDe (appliquerOperations dbC7'
        [OperationCatalogue.changerPrix 1 99999,
         OperationCatalogue.changerNom 1 "Autre nom"]) 0 = lignesDe dbC7' 0 ∧
    getCommande (appliquerOperations dbC7'
        [OperationCatalogue.changerPrix 1 99999,
         OperationCatalogue.changerNom 1 "Autre nom"]) 0 = getCommande dbC7' 0 :=
  instantane_fige dbC7 adrTest ModePaiement.livraison "" dbC7' 0 journalCommande0 rfl
    [OperationCatalogue.changerPrix 1 99999, OperationCatalogue.changerNom 1 "Autre nom"]

/-- C8 (amended): after a stock-ledger movement, the product's stock is the
movement's `stock_apres` and its status follows the signal's rule — a
movement that leaves stock 0 sets the status to EPUISE *regardless of the
prior status* (an explicitly archived product is overridden to EPUISE),
while a movement that leaves stock positive never touches an archived
product's status; an active product reaching 0 becomes EPUISE and an
EPUISE product becoming positive is reactivated to ACTIF. -/
theorem mouvement_statut : ∀ (db : Db) (m : MouvementStock) (p : Produit),
    findProduit db m.produit = some p →
    ∃ p', findProduit (creerMouvement db m) m.produit = some p' ∧
      p'.stock = m.stockApres ∧
      p'.statut = (if m.stockApres = 0 then StatutProduit.epuise
        else if p.statut = StatutProduit.epuise then StatutProduit.actif
        else p.statut) ∧
      (p.statut = StatutProduit.archive → m.stockApres ≠ 0 →
        p'.statut = StatutProduit.archive) ∧
      (p.statut = StatutProduit.actif → m.stockApres = 0 →
        p'.statut = StatutProduit.epuise) ∧
      (p.statut = StatutProduit.epuise → m.stockApres ≠ 0 →
        p'.statut = StatutProduit.actif) := by
  intro db m p hp
  obtain ⟨-, p', hfind, hstock, hstatut⟩ := creerMouvement_resultat db m p hp
  refine ⟨p', hfind, hstock, hstatut, ?_, ?_, ?_⟩
  · intro ha h0
    rw [hstatut]
    simp [h0, ha]
  · intro ha h0
    rw [hstatut]
    simp [h0]
  · intro ha h0
    rw [hstatut]
    simp [h0, ha]

/-- Witness for C8 (amended): a `sortie` movement taking the archived
product's stock from 5 to 0 yields stock 0 and status EPUISE. -/
theorem mouvement_statut_temoin :
    ∃ p', findProduit (creerMouvement dbC8
        ⟨1, TypeMouvement.sortie, 5, 5, 0⟩) 1 = some p' ∧
      p'.stock = 0 ∧
      p'.statut = (if (0 : Nat) = 0 then StatutProduit.epuise
        else if produitC8.statut = StatutProduit.epuise then StatutProduit.actif
        else produitC8.statut) ∧
      (produitC8.statut = StatutProduit.archive → (0 : Nat) ≠ 0 →
        p'.statut = StatutProduit.archive) ∧
      (produitC8.statut = StatutProduit.actif → (0 : Nat) = 0 →
        p'.statut = StatutProduit.epuise) ∧
      (produitC8.statut = StatutProduit.epuise → (0 : Nat) ≠ 0 →
        p'.statut = StatutProduit.actif) :=
  mouvement_statut dbC8 ⟨1, TypeMouvement.sortie, 5, 5, 0⟩ produitC8 rfl

/-- C8 counterexample: an explicitly ARCHIVE product with stock 5, drained
to 0 through the manual stock endpoint, does not keep its ARCHIVE status —
the signal overrides it to EPUISE. -/
theorem mouvement_archive_contre :
    (findProduit dbC8 1).map Produit.statut = some StatutProduit.archive ∧
    gererStock dbC8 1 TypeMouvement.sortie 5 = Except.ok dbC8' ∧
    (findProduit dbC8' 1).map Produit.statut = some StatutProduit.epuise ∧
    StatutProduit.epuise ≠ StatutProduit.archive :=
  ⟨rfl, rfl, rfl, by decide⟩

/-- C4 (amended): neither a successful `create_from_cart` nor a
cancellation appends any `MouvementStock` row — both write the product's
stock field directly; only the manual stock endpoint `gerer_stock` appends
exactly one ledger row, recording the product's stock as `stock_avant` and
leaving the product's cached stock equal to the row's `stock_apres`. -/
theorem grand_livre_mouvements :
    (∀ (db : Db) (a : AdresseLivraison) (m : ModePaiement) (note : String)
        (db' : Db) (cid : Nat) (J : List Effet),
      createFromCartJournal db a m note = Except.ok (db', cid, J) →
      db'.mouvements = db.mouvements) ∧
    (∀ (db : Db) (cid mnt : Nat),
      (appliquerEvenement db cid Evenement.annuler mnt).1.mouvements =
        db.mouvements) ∧
    (∀ (db : Db) (i : Nat) (tm : TypeMouvement) (q : Nat) (db' : Db),
      gererStock db i tm q = Except.ok db' →
      ∃ p mv, findProduit db i = some p ∧
        db'.mouvements = db.mouvements ++ [mv] ∧
        mv.produit = i ∧ mv.typeMouvement = tm ∧ mv.quantite = q ∧
        mv.stockAvant = p.stock ∧
        ∃ p', findProduit db' i = some p' ∧ p'.stock = mv.stockApres) := by
  refine ⟨?_, ?_, ?_⟩
  · intro db a m note db' cid J h
    obtain ⟨-, -, -, hdb', -, -⟩ := createFromCart_ok_decomp db a m note db' cid J h
    rw [hdb']
    exact (executerCreation_etat db a m note).2.2.2.1
  · intro db cid mnt
    cases hc : getCommande db cid with
    | none => rw [appliquerEvenement_aucune db cid _ mnt hc]
    | some c =>
      by_cases hsrc : c.statut ∈ sourcesAutorisees Evenement.annuler
      · rw [appliquerEvenement_annuler_ok db cid mnt c hc hsrc]
        dsimp only
        rw [signalPostSave_mouvements, setCommande_mouvements,
          restaurerStock_mouvements]
      · rw [appliquerEvenement_invalide db cid _ mnt c hc hsrc]
  · intro db i tm q db' hok
    obtain ⟨p, mv, hp, hmv, hdb'⟩ := gererStock_ok db i tm q db' hok
    obtain ⟨hpi, htm, hq, havant⟩ := calculerMouvement_ok p i tm q mv hmv
    subst hdb'
    have hp' : findProduit db mv.produit = some p := by rw [hpi]; exact hp
    obtain ⟨hmvts, p', hfind, hstock, -⟩ := creerMouvement_resultat db mv p hp'
    refine ⟨p, mv, hp, hmvts, hpi, htm, hq, havant, p', ?_, hstock⟩
    rw [← hpi]
    exact hfind

/-- Witness for C4 (amended): the successful Scenario-A-shaped creation
appends no stock movement. -/
theorem grand_livre_mouvements_temoin : dbC4'.mouvements = dbC4.mouvements :=
  grand_livre_mouvements.1 dbC4 adrTest ModePaiement.livraison "" dbC4' 0
    journalCommande0 rfl

/-- C4 counterexample: a successful `create_from_cart` produces an order
with one line yet zero `MouvementStock` rows — no 'sortie' ledger row per
order line is appended, contradicting the claim. -/
theorem grand_livre_contre :
    createFromCartJournal dbC4 adrTest ModePaiement.livraison "" =
      Except.ok (dbC4', 0, journalCommande0) ∧
    lignesDe dbC4' 0 =
      [{ produit := some 1, produitNom := "Casque BT", quantite := 2
         prixUnitaire := 20000 }] ∧
    dbC4'.mouvements = [] :=
  ⟨rfl, rfl, rfl⟩

/-- C9 (amended): the confirmation-email task is enqueued synchronously by
the `post_save` signal *inside* the `create_from_cart` transaction: in the
effect journal of every successful call the enqueue strictly precedes the
commit, and in the world where that transaction subsequently fails to
commit (rollback), the task remains enqueued while the order does not
exist. -/
theorem notification_enqueue_avant_commit :
    ∀ (db : Db) (a : AdresseLivraison) (m : ModePaiement) (note : String)
      (db' : Db) (cid : Nat) (J : List Effet),
    createFromCartJournal db a m note = Except.ok (db', cid, J) →
    J = [Effet.enqueueTache (TacheCelery.confirmationEmail cid),
         Effet.commitTransaction] ∧
    (mondeApresRollback db J).taches =
      db.taches ++ [TacheCelery.confirmationEmail cid] ∧
    (mondeApresRollback db J).commandes = db.commandes := by
  intro db a m note db' cid J h
  obtain ⟨-, -, -, -, hcid, hJ⟩ := createFromCart_ok_decomp db a m note db' cid J h
  subst hcid
  subst hJ
  exact ⟨rfl, rfl, rfl⟩

/-- Witness for C9 (amended) at a concrete successful creation. -/
theorem notification_enqueue_avant_commit_temoin :
    journalCommande0 = [Effet.enqueueTache (TacheCelery.confirmationEmail 0),
      Effet.commitTransaction] ∧
    (mondeApresRollback dbC9 journalCommande0).taches =
      dbC9.taches ++ [TacheCelery.confirmationEmail 0] ∧
    (mondeApresRollback dbC9 journalCommande0).commandes = dbC9.commandes :=
  notification_enqueue_avant_commit dbC9 adrTest ModePaiement.livraison "" dbC9' 0
    journalCommande0 rfl

/-- C9 counterexample: a `create_from_cart` invocation whose transaction
rolls back after the final save still has its confirmation-email task
enqueued (the `.delay()` call in the `post_save` signal is not deferred to
after commit), even though no order exists in the rolled-back world. -/
theorem notification_rollback_contre :
    createFromCartJournal dbC9 adrTest ModePaiement.livraison "" =
      Except.ok (dbC9', 0, journalCommande0) ∧
    (mondeApresRollback dbC9 journalCommande0).taches =
      [TacheCelery.confirmationEmail 0] ∧
    (mondeApresRollback dbC9 journalCommande0).commandes = [] ∧
    dbC9'.commandes ≠ [] :=
  ⟨rfl, rfl, rfl, by decide⟩

/-- Witness for C10: cancelling a confirmed order with one line of 2 units
over an EPUISE product with stock 0 sets even-positive stock 2 and keeps
the status EPUISE. -/
theorem annulation_cadre_statut_temoin :
    ((findProduit (appliquerEvenement dbC10 0 Evenement.annuler 3).1 1).map
        Produit.statut = (findProduit dbC10 1).map Produit.statut) ∧
    ∃ p', findProduit (appliquerEvenement dbC10 0 Evenement.annuler 3).1 1 = some p' ∧
      p'.stock = produitC10.stock + 2 ∧ p'.statut = produitC10.statut :=
  have h := annulation_cadre_statut dbC10 0 3
    { commandeTest with statut := StatutCommande.confirmee } rfl (by decide) (by decide)
  ⟨h.1 1, h.2 (by decide) ligneC10 (by decide) 1 produitC10 rfl rfl⟩

end HooYia
